import Mathlib

/-!
Verification of the header-detection / typed-row-extraction core of the
document-scanner-desktop repository (three Python scripts:
`analyze_excel.py`, `analyze_excel_v2.py`, `analyze_excel_summary.py`).

The Python scripts are shallowly embedded below.  Cell values are modelled
as a closed tagged union mirroring the scalar kinds an openpyxl grid can
hold (None, str, int, bool, float, datetime-capable values, and a generic
"other" scalar carrying its Python type name and its `str()` rendering).
Python truthiness, `str()` and `strftime` are embedded explicitly.
-/

namespace DocScan

/-- Model of a Python `datetime`-capable value (a value with `strftime`). -/
structure PyDateTime where
  year : Nat
  month : Nat
  day : Nat
  hour : Nat
  minute : Nat
  second : Nat
deriving DecidableEq, Repr

/-- The scalar kinds a grid cell can hold, as a closed tagged union.
`other` carries the Python type name and the `str()` rendering of the value. -/
inductive CellValue where
  | absent
  | text (s : String)
  | intV (n : Int)
  | boolV (b : Bool)
  | floatV (q : ℚ)
  | dateV (d : PyDateTime)
  | other (kindName : String) (strRepr : String)
deriving DecidableEq, Repr

/-- Zero-padded two-digit rendering, as Python `%m %d %H %M %S`. -/
def pad2 (n : Nat) : String :=
  if n < 10 then ("0") ++ toString n else toString n

/-- Zero-padded four-digit rendering, as Python `%Y`. -/
def pad4 (n : Nat) : String :=
  if n < 10 then ("000") ++ toString n
  else if n < 100 then ("00") ++ toString n
  else if n < 1000 then ("0") ++ toString n
  else toString n

/-- Python `value.strftime("%Y-%m-%d")`. -/
def strftimeDate (d : PyDateTime) : String :=
  pad4 d.year ++ "-" ++ pad2 d.month ++ "-" ++ pad2 d.day

/-- Python `value.strftime("%Y-%m-%d %H:%M:%S")` (also `str(datetime)` up to
microseconds, which the scripts never produce). -/
def strftimeFull (d : PyDateTime) : String :=
  strftimeDate d ++ " " ++ pad2 d.hour ++ ":" ++ pad2 d.minute ++ ":" ++ pad2 d.second

/-- Abstract stand-in for Python `str()` on a float.  No claim depends on the
exact text, only on it being non-blank and newline-free for the values used. -/
def floatRepr (q : ℚ) : String :=
  toString q.num ++ "/" ++ toString q.den

/-- Python `str(value)` for each modelled scalar kind. -/
def pyStr : CellValue → String
  | .absent => "None"
  | .text s => s
  | .intV n => toString n
  | .boolV b => if b then ("True") else ("False")
  | .floatV q => floatRepr q
  | .dateV d => strftimeFull d
  | .other _ r => r

/-- Python truthiness of a cell value (`bool(value)`).  Generic objects and
datetimes are truthy; None, empty text, zero and False are falsy. -/
def pyTruthy : CellValue → Bool
  | .absent => false
  | .text s => !(s == "")
  | .intV n => !(n == 0)
  | .boolV b => b
  | .floatV q => !(q == 0)
  | .dateV _ => true
  | .other _ _ => true

/-- Python `str.strip()`: drop whitespace from both ends (structural, so it
evaluates by kernel reduction). -/
def pyStrip (s : String) : String :=
  String.mk (((s.data.dropWhile Char.isWhitespace).reverse.dropWhile Char.isWhitespace).reverse)

/-- `openpyxl.utils.get_column_letter`, fueled to keep the recursion
structural: 1-based bijective base-26 letters.  The fuel `n` always
suffices because the recursive argument shrinks. -/
def colLetterAux : Nat → Nat → String
  | _, 0 => ""
  | 0, _ + 1 => ""
  | f + 1, m + 1 => colLetterAux f (m / 26) ++ String.singleton (Char.ofNat (65 + m % 26))

/-- `openpyxl.utils.get_column_letter`. -/
def colLetter (n : Nat) : String := colLetterAux n n

/-- Python `range(a, b)` as a list: `[a, a+1, ..., b-1]` (empty when `b ≤ a`). -/
def pyRange (a b : Nat) : List Nat :=
  (List.range (b - a)).map (· + a)

/-- A worksheet: the active sheet's title and its grid of cell values. -/
structure Worksheet where
  title : String
  rows : List (List CellValue)
deriving DecidableEq, Repr

/-- `ws.max_row`. -/
def Worksheet.maxRow (ws : Worksheet) : Nat := ws.rows.length

/-- `ws.max_column`: the widest row (dimension corners of truly empty sheets
are irrelevant to the claims and abstracted). -/
def Worksheet.maxCol (ws : Worksheet) : Nat :=
  (ws.rows.map List.length).foldr max 0

/-- Pad a row with absent cells up to width `w`, as `iter_rows` does. -/
def padTo (w : Nat) (row : List CellValue) : List CellValue :=
  row ++ List.replicate (w - row.length) CellValue.absent

/-- The (1-based) row `i` of the sheet, padded to width `w`, as
`list(ws.iter_rows(min_row=i, max_row=i))[0]` exposes it. -/
def paddedRowAt (ws : Worksheet) (w : Nat) (i : Nat) : List CellValue :=
  padTo w (ws.rows.getD (i - 1) [])

/-! ## analyze_excel_v2.py -/

/-- The per-cell stringification used to build `first_20_rows`
(analyze_excel_v2.py lines 43-50): None stays None, datetimes are rendered
date-only, everything else through `str()`. -/
def snapshotValue : CellValue → Option String
  | .absent => none
  | .dateV d => some (strftimeDate d)
  | v => some (pyStr v)

/-- The v2 meaningfulness test on a snapshot value
(`v is not None and (v.strip() if isinstance(v, str) else True)`); after
snapshotting every non-None value is a string, so the strip branch applies. -/
def meaningfulVal : Option String → Bool
  | none => false
  | some s => !(pyStrip s == "")

/-- `non_none_count` of analyze_excel_v2.py line 61. -/
def countMeaningfulV2 (vals : List (Option String)) : Nat :=
  vals.countP meaningfulVal

/-- The count the v2 detector sees for row `i`: the guarded lookup
`result['first_20_rows'][i-1]['values'] if i <= len(...) else []` (line 60)
followed by the meaningful count. -/
def cntV2 (rows20 : List (List (Option String))) (i : Nat) : Nat :=
  countMeaningfulV2 (if i ≤ rows20.length then rows20.getD (i - 1) [] else [])

/-- One iteration of the v2 detection loop (lines 62-64): overwrite the best
candidate only on `non_none_count > max_headers and non_none_count >= 3`. -/
def bestStep (f : Nat → Nat) (acc : Option Nat × Nat) (i : Nat) : Option Nat × Nat :=
  if acc.2 < f i ∧ 3 ≤ f i then (some i, f i) else acc

/-- The v2 header detector (lines 57-64): fold the loop body over
`range(1, min(15, max_row + 1))`, starting from `header_row = None`,
`max_headers = 0`. -/
def detectHeaderV2 (rows20 : List (List (Option String))) (maxRow : Nat) : Option Nat :=
  ((pyRange 1 (min 15 (maxRow + 1))).foldl (bestStep (cntV2 rows20)) (none, 0)).1

/-- Display value of a classified cell: Python keeps None, the raw value, or
a rendered string depending on the branch taken. -/
inductive DispVal where
  | null
  | ofCell (v : CellValue)
  | str (s : String)
deriving DecidableEq, Repr

/-- The v2 per-cell type classification and display value
(analyze_excel_v2.py lines 91-109).  The branches follow the source order
`None / str / int / float / strftime / else`.  A Python bool satisfies
`isinstance(value, int)`, so it takes the `integer` branch; datetimes are
not str/int/float, so they reach the `strftime` branch; `other` models
scalar kinds without `strftime`, so they fall through to `type(value).__name__`
with `str(value)` as display. -/
def classifyV2 : CellValue → String × DispVal
  | .absent => ("empty", DispVal.null)
  | .text s => ("string", DispVal.ofCell (.text s))
  | .intV n => ("integer", DispVal.ofCell (.intV n))
  | .boolV b => ("integer", DispVal.ofCell (.boolV b))
  | .floatV q => ("number", DispVal.ofCell (.floatV q))
  | .dateV d => ("date/datetime", DispVal.str (strftimeFull d))
  | .other k r => (k, DispVal.str r)

/-- One retained header column: `{'column', 'name', 'index'}`. -/
structure HeaderEntry where
  column : String
  name : String
  index : Nat
deriving DecidableEq, Repr

/-- The header-building loop of analyze_excel_v2.py lines 72-81, written with
an explicit running index for `enumerate`: `header_value = cell.value if
cell.value is not None else ""` followed by the truthiness test
`if header_value`.  `pyTruthy` on the cell itself coincides with that test,
since None is replaced by the falsy empty string. -/
def buildHeadersAux : Nat → List CellValue → List HeaderEntry
  | _, [] => []
  | idx, c :: rest =>
    (if pyTruthy c then [⟨colLetter (idx + 1), pyStr c, idx⟩] else [])
      ++ buildHeadersAux (idx + 1) rest

/-- Headers retained from a header row (v2 lines 72-81). -/
def buildHeaders (row : List CellValue) : List HeaderEntry :=
  buildHeadersAux 0 row

/-- One record entry: `{'header', 'value', 'type'}`. -/
structure DataCell where
  header : String
  value : DispVal
  type : String
deriving DecidableEq, Repr

/-- The sample-row loop body of analyze_excel_v2.py lines 87-123, with an
explicit running index for `enumerate`: classify the cell, look up the header
whose `index` equals the column position (the `for h in result['headers']`
search with `break`), and keep the entry only when the found name is truthy. -/
def buildRowDictAux (headers : List HeaderEntry) : Nat → List CellValue → List (String × DataCell)
  | _, [] => []
  | idx, c :: rest =>
    (match headers.find? (fun h => h.index == idx) with
     | some h =>
        if h.name == "" then []
        else [(colLetter (idx + 1), ⟨h.name, (classifyV2 c).2, (classifyV2 c).1⟩)]
     | none => [])
      ++ buildRowDictAux headers (idx + 1) rest

/-- The per-row record of v2 lines 86-123 (keys are column letters, in
column order, matching Python dict insertion order). -/
def buildRowDict (headers : List HeaderEntry) (row : List CellValue) : List (String × DataCell) :=
  buildRowDictAux headers 0 row

/-- One entry of `first_20_rows`. -/
structure RowSnapshot where
  row_num : Nat
  values : List (Option String)
deriving DecidableEq, Repr

/-- One entry of `sample_data`. -/
structure SampleRow where
  row_num : Nat
  data : List (String × DataCell)
deriving DecidableEq, Repr

/-- The per-workbook result record of analyze_excel_v2.py lines 13-25, with
the source's initial values as field defaults. -/
structure ResultV2 where
  name : String
  filepath : String
  exists_ : Bool := false
  error : Option String := none
  sheet_name : Option String := none
  total_rows : Nat := 0
  total_columns : Nat := 0
  header_row : Option Nat := none
  headers : List HeaderEntry := []
  first_20_rows : List RowSnapshot := []
  sample_data : List SampleRow := []
deriving DecidableEq, Repr

/-- The snapshot of row `i` (v2 lines 40-54). -/
def snapAt (ws : Worksheet) (i : Nat) : RowSnapshot :=
  ⟨i, (paddedRowAt ws ws.maxCol i).map snapshotValue⟩

/-- `first_20_rows` (v2 lines 40-54): rows `range(1, min(21, max_row + 1))`. -/
def first20Of (ws : Worksheet) : List RowSnapshot :=
  (pyRange 1 (min 21 (ws.maxRow + 1))).map (snapAt ws)

/-- The header row the caller proceeds with: the detector's choice, or the
row-1 fallback of v2 lines 66-67. -/
def headerRowOf (ws : Worksheet) : Nat :=
  (detectHeaderV2 ((first20Of ws).map RowSnapshot.values) ws.maxRow).getD 1

/-- The sample entry for row `i` (v2 lines 84-128). -/
def sampleAt (ws : Worksheet) (headers : List HeaderEntry) (i : Nat) : SampleRow :=
  ⟨i, buildRowDict headers (paddedRowAt ws ws.maxCol i)⟩

/-- The fully successful per-workbook analysis of analyze_excel_v2.py
lines 32-130 (after a successful `load_workbook` and with no fault while
reading rows): metadata, first-20 snapshot, detection with fallback, header
extraction, and the sample rows `range(header_row + 1, min(header_row + 4,
max_row + 1))`. -/
def analyzeFull (name filepath : String) (ws : Worksheet) : ResultV2 :=
  let hr := headerRowOf ws
  let headers := buildHeaders (paddedRowAt ws ws.maxCol hr)
  { name := name
    filepath := filepath
    exists_ := true
    sheet_name := some ws.title
    total_rows := ws.maxRow
    total_columns := ws.maxCol
    header_row := some hr
    headers := headers
    first_20_rows := first20Of ws
    sample_data := (pyRange (hr + 1) (min (hr + 4) (ws.maxRow + 1))).map (sampleAt ws headers) }

/-- Resource events on the workbook handle. -/
inductive Ev where
  | opened
  | closed
deriving DecidableEq, Repr

/-- What the loader finds at a path: no file, a load fault
(`load_workbook` raises), or a workbook.  `rowFault` models a row whose
read from the underlying store raises (any access to that 1-based row
index raises); `none` means no access faults. -/
inductive FileState where
  | missing
  | loadFail (msg : String)
  | ok (ws : Worksheet) (rowFault : Option Nat)

/-- Stand-in for the formatted text `f"{type(e).__name__}: {str(e)}"` of the
row-read exception caught at v2 line 131. -/
def rowFaultMsg : String := "Exception: row read failed"

/-- Execution of `analyze_excel` of analyze_excel_v2.py (lines 12-134)
against a modelled filesystem, returning the result record and the trace of
handle events.  Mirrors the source control flow: the existence check before
the `try`; `exists` set True before `load_workbook`; metadata set before the
first-20 loop; `header_row` recorded before the header row is read; a raised
row read jumps to the `except` clause, which records the message — and,
because `wb.close()` (line 130) sits at the end of the `try` body rather
than in a `finally`, no close event is emitted on those paths. -/
def analyzeExcelV2Run (fs : String → FileState) (filepath name : String) :
    ResultV2 × List Ev :=
  let base : ResultV2 := { name := name, filepath := filepath }
  match fs filepath with
  | .missing => ({ base with error := some ("File not found") }, [])
  | .loadFail msg => ({ base with exists_ := true, error := some msg }, [])
  | .ok ws rowFault =>
    let r0 : ResultV2 :=
      { base with
        exists_ := true
        sheet_name := some ws.title
        total_rows := ws.maxRow
        total_columns := ws.maxCol }
    let r20idx := pyRange 1 (min 21 (ws.maxRow + 1))
    match r20idx.find? (fun i => rowFault == some i) with
    | some _ =>
        ({ r0 with
            first_20_rows := (r20idx.takeWhile (fun i => rowFault != some i)).map (snapAt ws)
            error := some rowFaultMsg }, [Ev.opened])
    | none =>
      let r1 := { r0 with first_20_rows := first20Of ws }
      let hr := headerRowOf ws
      let r2 := { r1 with header_row := some hr }
      if rowFault == some hr then
        ({ r2 with error := some rowFaultMsg }, [Ev.opened])
      else
        let headers := buildHeaders (paddedRowAt ws ws.maxCol hr)
        let sidx := pyRange (hr + 1) (min (hr + 4) (ws.maxRow + 1))
        match sidx.find? (fun i => rowFault == some i) with
        | some _ =>
            ({ r2 with
                headers := headers
                sample_data := (sidx.takeWhile (fun i => rowFault != some i)).map (sampleAt ws headers)
                error := some rowFaultMsg }, [Ev.opened])
        | none => (analyzeFull name filepath ws, [Ev.opened, Ev.closed])

/-- The result record alone. -/
def analyzeExcelV2 (fs : String → FileState) (filepath name : String) : ResultV2 :=
  (analyzeExcelV2Run fs filepath name).1

/-- The batch driver of analyze_excel_v2.py lines 143-146: one result per
(path, name) item, appended in order. -/
def runBatchV2 (fs : String → FileState) (files : List (String × String)) : List ResultV2 :=
  files.map (fun pn => analyzeExcelV2 fs pn.1 pn.2)

/-! ## analyze_excel.py (simple variant) -/

/-- The meaningfulness test of analyze_excel.py line 38:
`v is not None and isinstance(v, str) and v.strip()` — only textual cells
with non-blank trimmed text count (a Python bool is not a str). -/
def isMeaningfulV1 : CellValue → Bool
  | .text s => !(pyStrip s == "")
  | _ => false

/-- The candidacy test of analyze_excel.py lines 37-39: the row has some
truthy value (`any(row_values)`) and at least 3 meaningful string cells. -/
def rowQualV1 (row : List CellValue) : Bool :=
  row.any pyTruthy && decide (3 ≤ row.countP isMeaningfulV1)

/-- The simple detector (analyze_excel.py lines 31-41): rows 1..20 from
`iter_rows(max_row=20)`, first qualifying row wins (`if header_row is None`). -/
def detectHeaderV1 (ws : Worksheet) : Option Nat :=
  (pyRange 1 21).find? (fun i => rowQualV1 (paddedRowAt ws ws.maxCol i))

/-- The header row analyze_excel.py proceeds with (lines 48-49 fallback). -/
def headerRowV1 (ws : Worksheet) : Nat :=
  (detectHeaderV1 ws).getD 1

/-! ## analyze_excel_summary.py -/

/-- `get_type_name` of analyze_excel_summary.py lines 10-23; branch order
and bool-is-int behaviour as in `classifyV2`. -/
def get_type_name : CellValue → String
  | .absent => "empty"
  | .text _ => "string"
  | .intV _ => "integer"
  | .boolV _ => "integer"
  | .floatV _ => "number"
  | .dateV _ => "date/datetime"
  | .other k _ => k

/-- `val.count()` of the newline character on a string. -/
def countNewlines (s : String) : Nat :=
  s.toList.countP (fun c => c == '\n')

/-- The per-cell disqualifier of analyze_excel_summary.py lines 61-66: a
truthy cell whose trimmed `str()` is longer than 100 characters or has more
than 2 newlines. -/
def cellHeaderBad (c : CellValue) : Bool :=
  pyTruthy c &&
    (decide (100 < (pyStrip (pyStr c)).length) || decide (2 < countNewlines (pyStrip (pyStr c))))

/-- `non_empty` of analyze_excel_summary.py line 55:
`cell.value and str(cell.value).strip()`. -/
def rowNonEmptySummary (row : List CellValue) : Nat :=
  row.countP (fun c => pyTruthy c && !(pyStrip (pyStr c) == ""))

/-- `looks_like_header` of analyze_excel_summary.py lines 58-66. -/
def looksLikeHeaderRow (row : List CellValue) : Bool :=
  row.all (fun c => !(cellHeaderBad c))

/-- Candidacy in the summary variant (lines 56-68): the numeric threshold,
then `looks_like_header`, then the source's re-check of the threshold. -/
def rowQualSummary (row : List CellValue) : Bool :=
  decide (3 ≤ rowNonEmptySummary row)
    && (looksLikeHeaderRow row && decide (3 ≤ rowNonEmptySummary row))

/-- The summary detector (analyze_excel_summary.py lines 52-72): rows from
`range(1, min(15, max_row + 1))`, first qualifying row wins
(`if header_row is None`). -/
def detectHeaderSummary (ws : Worksheet) : Option Nat :=
  (pyRange 1 (min 15 (ws.maxRow + 1))).find? (fun i => rowQualSummary (paddedRowAt ws ws.maxCol i))

/-! ## Spec-side definition (for refutation only) -/

/-- Modelled from the spec: the claimed meaningfulness predicate of C2 —
a cell counts when it is non-absent and, if textual, non-blank after
trimming (so non-absent numeric cells count). -/
def claimMeaningful : CellValue → Bool
  | .absent => false
  | .text s => !(pyStrip s == "")
  | _ => true

/-! ## Helper lemmas -/

theorem mem_pyRange {a b i : Nat} : i ∈ pyRange a b ↔ a ≤ i ∧ i < b := by
  simp only [pyRange, List.mem_map, List.mem_range]
  constructor
  · rintro ⟨k, hk, rfl⟩
    omega
  · rintro ⟨h1, h2⟩
    exact ⟨i - a, by omega, by omega⟩

theorem pyRange_sorted (a b : Nat) : (pyRange a b).Pairwise (· < ·) := by
  unfold pyRange
  rw [List.pairwise_map]
  exact (List.pairwise_lt_range _).imp (fun h => Nat.add_lt_add_right h a)

theorem pyRange_split {a b i : Nat} (h : i ∈ pyRange a b) :
    ∃ L1 L2, pyRange a b = L1 ++ i :: L2 ∧ (∀ j ∈ L1, j < i) ∧ (∀ j ∈ L2, i < j) := by
  obtain ⟨s, t, hst⟩ := List.append_of_mem h
  refine ⟨s, t, hst, ?_, ?_⟩
  · have hp := pyRange_sorted a b
    rw [hst] at hp
    obtain ⟨-, -, h12⟩ := List.pairwise_append.mp hp
    exact fun j hj => h12 j hj i (List.mem_cons_self i t)
  · have hp := pyRange_sorted a b
    rw [hst] at hp
    obtain ⟨-, h2, -⟩ := List.pairwise_append.mp hp
    exact (List.pairwise_cons.mp h2).1

theorem find?_eq_some_of_first {p : Nat → Bool} {L1 L2 : List Nat} {i : Nat}
    (hp : p i = true) (h1 : ∀ j ∈ L1, p j = false) :
    (L1 ++ i :: L2).find? p = some i := by
  induction L1 with
  | nil => simpa using List.find?_cons_of_pos _ hp
  | cons a t ih =>
      have ha : ¬ p a = true := by
        simp [h1 a (List.mem_cons_self a t)]
      rw [List.cons_append, List.find?_cons_of_neg _ ha]
      exact ih (fun j hj => h1 j (List.mem_cons_of_mem a hj))

theorem bestStep_foldl_const {f : Nat → Nat} {L : List Nat} {b : Option Nat} {m : Nat}
    (h : ∀ i ∈ L, ¬ (m < f i ∧ 3 ≤ f i)) :
    L.foldl (bestStep f) (b, m) = (b, m) := by
  induction L with
  | nil => rfl
  | cons i t ih =>
      have hs : bestStep f (b, m) i = (b, m) := by
        unfold bestStep
        rw [if_neg (h i (List.mem_cons_self i t))]
      rw [List.foldl_cons, hs]
      exact ih (fun j hj => h j (List.mem_cons_of_mem i hj))

theorem bestStep_foldl_snd_lt {f : Nat → Nat} {L : List Nat} {c : Nat}
    (h : ∀ i ∈ L, 3 ≤ f i → f i < c) :
    ∀ b m, m < c → (L.foldl (bestStep f) (b, m)).2 < c := by
  induction L with
  | nil => exact fun b m hm => hm
  | cons i t ih =>
      intro b m hm
      rw [List.foldl_cons]
      unfold bestStep
      by_cases hc : m < f i ∧ 3 ≤ f i
      · rw [if_pos hc]
        exact ih (fun j hj => h j (List.mem_cons_of_mem i hj)) _ _
          (h i (List.mem_cons_self i t) hc.2)
      · rw [if_neg hc]
        exact ih (fun j hj => h j (List.mem_cons_of_mem i hj)) _ _ hm

theorem bestStep_foldl_some {f : Nat → Nat} {L : List Nat} {i : Nat} :
    ∀ b m, (L.foldl (bestStep f) (b, m)).1 = some i →
      b = some i ∨ (i ∈ L ∧ 3 ≤ f i) := by
  induction L with
  | nil => exact fun b m h => Or.inl h
  | cons j t ih =>
      intro b m h
      rw [List.foldl_cons] at h
      unfold bestStep at h
      by_cases hc : m < f j ∧ 3 ≤ f j
      · rw [if_pos hc] at h
        rcases ih _ _ h with h1 | h1
        · have : j = i := by injection h1
          exact Or.inr ⟨this ▸ List.mem_cons_self j t, this ▸ hc.2⟩
        · exact Or.inr ⟨List.mem_cons_of_mem j h1.1, h1.2⟩
      · rw [if_neg hc] at h
        rcases ih _ _ h with h1 | h1
        · exact Or.inl h1
        · exact Or.inr ⟨List.mem_cons_of_mem j h1.1, h1.2⟩

theorem bestStep_foldl_select {f : Nat → Nat} {L1 L2 : List Nat} {i : Nat}
    (hq : 3 ≤ f i)
    (h1 : ∀ j ∈ L1, 3 ≤ f j → f j < f i)
    (h2 : ∀ j ∈ L2, 3 ≤ f j → f j ≤ f i) :
    (((L1 ++ i :: L2).foldl (bestStep f) (none, 0)).1 = some i) := by
  rw [List.foldl_append, List.foldl_cons]
  have h0 : (0 : Nat) < f i := by omega
  have hlt : (L1.foldl (bestStep f) (none, 0)).2 < f i :=
    bestStep_foldl_snd_lt h1 none 0 h0
  have hstep : bestStep f (L1.foldl (bestStep f) (none, 0)) i = (some i, f i) := by
    unfold bestStep
    rw [if_pos ⟨hlt, hq⟩]
  rw [hstep]
  rw [bestStep_foldl_const (fun j hj hcon => by have := h2 j hj hcon.2; omega)]

theorem none_beq_some (x : Nat) : (((none : Option Nat) == some x)) = false := rfl

theorem find?_none_beq (l : List Nat) :
    l.find? (fun i => ((none : Option Nat) == some i)) = none :=
  List.find?_eq_none.mpr (fun x _ h => by rw [none_beq_some] at h; exact Bool.noConfusion h)

theorem find?_false (l : List Nat) : l.find? (fun _ => false) = none :=
  List.find?_eq_none.mpr (fun _ _ h => Bool.noConfusion h)

/-- With no row faults, the v2 analysis takes the straight-line path: the full
result and an open followed by a close. -/
theorem analyzeRun_ok_none {fs : String → FileState} {p n : String} {ws : Worksheet}
    (h : fs p = FileState.ok ws none) :
    analyzeExcelV2Run fs p n = (analyzeFull n p ws, [Ev.opened, Ev.closed]) := by
  unfold analyzeExcelV2Run
  rw [h]
  simp only [find?_none_beq, none_beq_some, Bool.false_eq_true, if_false, find?_false]

/-- Every retained header entry comes from a truthy cell of the header row,
carries that cell's `str()` as its name, and records its column position. -/
theorem mem_buildHeadersAux {row : List CellValue} {k : Nat} {h : HeaderEntry} :
    h ∈ buildHeadersAux k row →
    ∃ j, j < row.length ∧ h.index = k + j ∧
      pyTruthy (row.getD j CellValue.absent) = true ∧
      h.name = pyStr (row.getD j CellValue.absent) ∧
      h.column = colLetter (k + j + 1) := by
  induction row generalizing k with
  | nil => intro hm; exact absurd hm (List.not_mem_nil h)
  | cons c rest ih =>
      intro hm
      unfold buildHeadersAux at hm
      rcases List.mem_append.mp hm with hm1 | hm2
      · by_cases ht : pyTruthy c
        · rw [if_pos ht] at hm1
          rcases List.mem_singleton.mp hm1 with rfl
          exact ⟨0, by simp, by simp, by simpa using ht, by simp, by simp⟩
        · rw [if_neg ht] at hm1
          exact absurd hm1 (List.not_mem_nil h)
      · obtain ⟨j, hj, hidx, htr, hn, hc⟩ := ih hm2
        refine ⟨j + 1, by simpa using hj, by omega, ?_, ?_, ?_⟩
        · simpa using htr
        · simpa using hn
        · rw [hc]; congr 1; omega

/-- Every record entry originates from a retained header whose `index` equals
the entry's column position, and its value/type come from the cell at that
position. -/
theorem mem_buildRowDictAux {headers : List HeaderEntry} {row : List CellValue}
    {k : Nat} {e : String × DataCell} :
    e ∈ buildRowDictAux headers k row →
    ∃ h ∈ headers, ∃ j, j < row.length ∧ h.index = k + j ∧ h.name ≠ "" ∧
      e = (colLetter (k + j + 1),
        ⟨h.name, (classifyV2 (row.getD j CellValue.absent)).2,
          (classifyV2 (row.getD j CellValue.absent)).1⟩) := by
  induction row generalizing k with
  | nil => intro hm; exact absurd hm (List.not_mem_nil e)
  | cons c rest ih =>
      intro hm
      unfold buildRowDictAux at hm
      rcases List.mem_append.mp hm with hm1 | hm2
      · cases hfind : headers.find? (fun h => h.index == k) with
        | none =>
            rw [hfind] at hm1
            have hnil : e ∈ ([] : List (String × DataCell)) := hm1
            exact absurd hnil (List.not_mem_nil e)
        | some h =>
            rw [hfind] at hm1
            have hm1 : e ∈ (if (h.name == "") = true then ([] : List (String × DataCell))
                else [(colLetter (k + 1), ⟨h.name, (classifyV2 c).2, (classifyV2 c).1⟩)]) := hm1
            by_cases hn : (h.name == "") = true
            · rw [if_pos hn] at hm1
              exact absurd hm1 (List.not_mem_nil e)
            · rw [if_neg hn] at hm1
              rcases List.mem_singleton.mp hm1 with rfl
              have hidx : h.index = k := by
                have := List.find?_some hfind
                simpa using this
              refine ⟨h, List.mem_of_find?_eq_some hfind, 0, by simp, by omega, ?_, by simp⟩
              simpa using hn
      · obtain ⟨h, hh, j, hj, hidx, hn, he⟩ := ih hm2
        refine ⟨h, hh, j + 1, by simpa using hj, by omega, hn, ?_⟩
        rw [he]
        simp only [List.getD_cons_succ]
        congr 2
        omega

/-- A concrete fractional value (5/2) built directly so that it evaluates by
kernel reduction. -/
def sampleFloat : ℚ := ⟨5, 2, by decide, by decide⟩

/-! ## Claim theorems -/

/-- C1, counterexample: at a midnight-timestamp cell the record-extraction
classifier of analyze_excel_v2.py produces type tag "date/datetime" (not
"date") and renders the value with a time component ("2024-01-15 00:00:00",
not "2024-01-15"); the summary variant's `get_type_name` agrees on the tag. -/
theorem c1_counterexample :
    (classifyV2 (CellValue.dateV ⟨2024, 1, 15, 0, 0, 0⟩)).1 ≠ "date" ∧
    (classifyV2 (CellValue.dateV ⟨2024, 1, 15, 0, 0, 0⟩)).2 ≠ DispVal.str ("2024-01-15") ∧
    get_type_name (CellValue.dateV ⟨2024, 1, 15, 0, 0, 0⟩) ≠ "date" := by
  decide

/-- C1 (amended): during record extraction the inferred type tag is
determined solely by the value's kind — absent → "empty", textual →
"string", int-kind → "integer", float-kind → "number",
calendar/timestamp-capable → "date/datetime" rendered as
"YYYY-MM-DD HH:MM:SS" with the time component always present (also at
midnight), and any other scalar kind → its own kind name; the two variants'
classifiers agree on every tag. -/
theorem c1_amended_classification :
    classifyV2 CellValue.absent = ("empty", DispVal.null)
    ∧ (∀ s, classifyV2 (CellValue.text s) = ("string", DispVal.ofCell (CellValue.text s)))
    ∧ (∀ n, classifyV2 (CellValue.intV n) = ("integer", DispVal.ofCell (CellValue.intV n)))
    ∧ (∀ q, classifyV2 (CellValue.floatV q) = ("number", DispVal.ofCell (CellValue.floatV q)))
    ∧ (∀ d, classifyV2 (CellValue.dateV d) = ("date/datetime", DispVal.str (strftimeFull d)))
    ∧ (classifyV2 (CellValue.dateV ⟨2024, 1, 15, 0, 0, 0⟩)).2 = DispVal.str ("2024-01-15 00:00:00")
    ∧ (∀ k r, (classifyV2 (CellValue.other k r)).1 = k)
    ∧ (∀ v, get_type_name v = (classifyV2 v).1) := by
  refine ⟨rfl, fun s => rfl, fun n => rfl, fun q => rfl, fun d => rfl, by decide,
    fun k r => rfl, fun v => ?_⟩
  cases v <;> rfl

/-- C10: a boolean cell satisfies Python `isinstance(value, int)`, so both
variants classify it as "integer"; in particular its tag is never "bool" or
"boolean". -/
theorem c10_bool_classified_integer :
    (∀ b, get_type_name (CellValue.boolV b) = "integer")
    ∧ (∀ b, (classifyV2 (CellValue.boolV b)).1 = "integer")
    ∧ (∀ b, get_type_name (CellValue.boolV b) ≠ "bool"
        ∧ get_type_name (CellValue.boolV b) ≠ "boolean") := by
  refine ⟨fun b => rfl, fun b => rfl, fun b => ?_⟩
  cases b <;> exact ⟨by decide, by decide⟩

/-- C2, counterexample: in analyze_excel.py a row of three non-absent
integer cells has 3 meaningful cells in the claim's sense, yet its detector
(which counts only `isinstance(v, str)` cells) skips it and selects the
later all-text row instead. -/
theorem c2_counterexample :
    ([CellValue.intV 1, CellValue.intV 2, CellValue.intV 3].countP claimMeaningful = 3) ∧
    detectHeaderV1 ⟨"s", [[CellValue.intV 1, CellValue.intV 2, CellValue.intV 3],
      [CellValue.text ("a"), CellValue.text ("b"), CellValue.text ("c")]]⟩ = some 2 := by
  decide

/-- C2 (amended): the v2 detector counts a cell when its stringified form is
non-blank after trimming (so non-absent numeric, date and boolean cells
count), while the simple analyze_excel.py detector counts only textual cells
with non-blank trimmed text; in each variant a scanned row needs at least 3
counted cells to be selected, a row with exactly 3 is eligible (selected
when it is the winning candidate), and a row with exactly 2 is never
selected. -/
theorem c2_amended_threshold :
    (∀ rows20 mr i, detectHeaderV2 rows20 mr = some i → 3 ≤ cntV2 rows20 i)
    ∧ (∀ ws i, detectHeaderV1 ws = some i →
        3 ≤ (paddedRowAt ws ws.maxCol i).countP isMeaningfulV1)
    ∧ (countMeaningfulV2 ([CellValue.intV 7, CellValue.floatV sampleFloat,
        CellValue.dateV ⟨2024, 1, 15, 0, 0, 0⟩].map snapshotValue) = 3)
    ∧ (∀ rows20 mr i, i ∈ pyRange 1 (min 15 (mr + 1)) → cntV2 rows20 i = 3 →
        (∀ j ∈ pyRange 1 (min 15 (mr + 1)), j ≠ i → cntV2 rows20 j < 3) →
        detectHeaderV2 rows20 mr = some i)
    ∧ (∀ ws i, i ∈ pyRange 1 21 →
        rowQualV1 (paddedRowAt ws ws.maxCol i) = true →
        (∀ j ∈ pyRange 1 21, j < i → rowQualV1 (paddedRowAt ws ws.maxCol j) = false) →
        detectHeaderV1 ws = some i) := by
  refine ⟨?_, ?_, by decide, ?_, ?_⟩
  · intro rows20 mr i h
    unfold detectHeaderV2 at h
    rcases bestStep_foldl_some _ _ h with h1 | h1
    · exact absurd h1 (by simp)
    · exact h1.2
  · intro ws i h
    have h2 := List.find?_some h
    simp only [rowQualV1, Bool.and_eq_true, decide_eq_true_eq] at h2
    exact h2.2
  · intro rows20 mr i hmem hcnt hothers
    obtain ⟨L1, L2, heq, hL1, hL2⟩ := pyRange_split hmem
    unfold detectHeaderV2
    rw [heq]
    refine bestStep_foldl_select (by omega) ?_ ?_
    · intro j hj h3
      have hjm : j ∈ pyRange 1 (min 15 (mr + 1)) := by
        rw [heq]; exact List.mem_append.mpr (Or.inl hj)
      have := hothers j hjm (by have := hL1 j hj; omega)
      omega
    · intro j hj h3
      have hjm : j ∈ pyRange 1 (min 15 (mr + 1)) := by
        rw [heq]; exact List.mem_append.mpr (Or.inr (List.mem_cons_of_mem i hj))
      by_cases hji : j = i
      · subst hji; omega
      · have := hothers j hjm hji; omega
  · intro ws i hmem hq hfirst
    obtain ⟨L1, L2, heq, hL1, hL2⟩ := pyRange_split hmem
    unfold detectHeaderV1
    rw [heq]
    refine find?_eq_some_of_first hq ?_
    intro j hj
    have hjm : j ∈ pyRange 1 21 := by
      rw [heq]; exact List.mem_append.mpr (Or.inl hj)
    exact hfirst j hjm (hL1 j hj)

/-- C2 witness: a grid whose first row has exactly three meaningful text
cells is selected by the simple detector. -/
theorem c2_amended_threshold_witness :
    detectHeaderV1 ⟨"s", [[CellValue.text ("a"), CellValue.text ("b"), CellValue.text ("c")]]⟩
      = some 1 := by
  apply c2_amended_threshold.2.2.2.2
  · decide
  · decide
  · intro j hj hlt
    exact absurd (mem_pyRange.mp hj).1 (by omega)

/-- C3, counterexample: in the stricter v2 scan, a grid of 15 rows whose
only qualifying row is row 15 — the row at index `scan_limit = 15`
qualifies, yet the detector (whose Python range stops at row 14) never
examines it and finds nothing. -/
theorem c3_counterexample :
    3 ≤ cntV2 (List.replicate 14 [] ++ [[some ("a"), some ("b"), some ("c")]]) 15 ∧
    detectHeaderV2 (List.replicate 14 [] ++ [[some ("a"), some ("b"), some ("c")]]) 15 = none := by
  decide

/-- C3 (amended): the stricter variants examine rows 1 through
min(14, total_rows) — `range(1, min(15, max_row + 1))` excludes row 15 — so
a selected row index is always between 1 and 14 and never exceeds the row
count, with a qualifying row at index 14 examined and selectable; the
simpler variant examines rows 1..20 inclusive, with a qualifying row at
index 20 selectable and rows beyond 20 never selected. -/
theorem c3_amended_scan_bounds :
    (∀ rows20 mr i, detectHeaderV2 rows20 mr = some i → 1 ≤ i ∧ i ≤ 14 ∧ i ≤ mr)
    ∧ (∀ ws i, detectHeaderSummary ws = some i → 1 ≤ i ∧ i ≤ 14 ∧ i ≤ ws.maxRow)
    ∧ (∀ ws i, detectHeaderV1 ws = some i → 1 ≤ i ∧ i ≤ 20)
    ∧ detectHeaderV2 (List.replicate 13 [] ++ [[some ("a"), some ("b"), some ("c")]]) 14 = some 14
    ∧ detectHeaderV1 ⟨"s", List.replicate 19 [] ++
        [[CellValue.text ("a"), CellValue.text ("b"), CellValue.text ("c")]]⟩ = some 20 := by
  refine ⟨?_, ?_, ?_, by decide, by decide⟩
  · intro rows20 mr i h
    unfold detectHeaderV2 at h
    rcases bestStep_foldl_some _ _ h with h1 | h1
    · exact absurd h1 (by simp)
    · have := mem_pyRange.mp h1.1
      omega
  · intro ws i h
    have := mem_pyRange.mp (List.mem_of_find?_eq_some h)
    omega
  · intro ws i h
    have := mem_pyRange.mp (List.mem_of_find?_eq_some h)
    omega

/-- C3 witness: the bounds instantiated at the qualifying row 14 of the
14-row boundary grid. -/
theorem c3_amended_scan_bounds_witness : 1 ≤ 14 ∧ 14 ≤ 14 ∧ 14 ≤ 14 :=
  c3_amended_scan_bounds.1
    (List.replicate 13 [] ++ [[some ("a"), some ("b"), some ("c")]]) 14 14 (by decide)

/-- C4: the v2 detector returns the scanned qualifying row with the strictly
greatest meaningful count; on ties the lowest row index wins (the source
only overwrites the best candidate on a strictly greater count).  The
hypotheses say row `i` is scanned and qualifying, no scanned qualifying row
beats its count, and every earlier scanned qualifying row has a strictly
smaller count — i.e. `i` is the least index attaining the maximum. -/
theorem c4_best_qualifying (rows20 : List (List (Option String))) (mr i : Nat)
    (hmem : i ∈ pyRange 1 (min 15 (mr + 1)))
    (hq : 3 ≤ cntV2 rows20 i)
    (hmax : ∀ j ∈ pyRange 1 (min 15 (mr + 1)),
        3 ≤ cntV2 rows20 j → cntV2 rows20 j ≤ cntV2 rows20 i)
    (hfirst : ∀ j ∈ pyRange 1 (min 15 (mr + 1)),
        j < i → 3 ≤ cntV2 rows20 j → cntV2 rows20 j < cntV2 rows20 i) :
    detectHeaderV2 rows20 mr = some i := by
  obtain ⟨L1, L2, heq, hL1, hL2⟩ := pyRange_split hmem
  unfold detectHeaderV2
  rw [heq]
  refine bestStep_foldl_select hq ?_ ?_
  · intro j hj h3
    have hjm : j ∈ pyRange 1 (min 15 (mr + 1)) := by
      rw [heq]; exact List.mem_append.mpr (Or.inl hj)
    exact hfirst j hjm (hL1 j hj) h3
  · intro j hj h3
    have hjm : j ∈ pyRange 1 (min 15 (mr + 1)) := by
      rw [heq]; exact List.mem_append.mpr (Or.inr (List.mem_cons_of_mem i hj))
    exact hmax j hjm h3

/-- C4 witness: on a grid whose two scanned rows tie at count 3, the
first-reached row wins. -/
theorem c4_best_qualifying_witness :
    detectHeaderV2 [[some ("a"), some ("b"), some ("c")],
      [some ("d"), some ("e"), some ("f")]] 2 = some 1 := by
  apply c4_best_qualifying
  · decide
  · decide
  · intro j hj h3
    obtain ⟨hb1, hb2⟩ := mem_pyRange.mp hj
    have hb3 : j < 3 := by omega
    interval_cases j <;> decide
  · intro j hj hlt h3
    exact absurd (mem_pyRange.mp hj).1 (by omega)

/-- C5, counterexample: a whitespace-only header cell (" ") is Python-truthy,
so the v2 header extraction retains it (here at column index 1 / letter "B"),
and the corresponding key "B" appears in the extracted record — contradicting
the claim that blank (whitespace-only after trimming) header columns never
appear. -/
theorem c5_counterexample :
    (∃ h ∈ buildHeaders [CellValue.text ("A"), CellValue.text (" "), CellValue.text ("B")],
        h.index = 1 ∧ h.name = " " ∧ pyStrip h.name = "") ∧
    (∃ e ∈ buildRowDict
        (buildHeaders [CellValue.text ("A"), CellValue.text (" "), CellValue.text ("B")])
        [CellValue.intV 1, CellValue.intV 2, CellValue.intV 3], e.1 = "B") := by
  constructor
  · exact ⟨⟨"B", " ", 1⟩, by decide, rfl, rfl, by decide⟩
  · exact ⟨("B", ⟨" ", DispVal.ofCell (CellValue.intV 2), "integer"⟩), by decide, rfl⟩

/-- C5 (amended): a column whose header cell is absent or Python-falsy
(absent, empty text, numeric zero, false) never appears in the retained
header set — whitespace-only textual header cells are retained — and every
extracted record entry originates from a retained header column, with key,
field name, value and type tied positionally to that header's column index. -/
theorem c5_amended_header_filtering :
    (∀ row idx, pyTruthy (row.getD idx CellValue.absent) = false →
        ∀ h ∈ buildHeaders row, h.index ≠ idx)
    ∧ (∀ headers row, ∀ e ∈ buildRowDict headers row,
        ∃ h ∈ headers, ∃ j, j < row.length ∧ h.index = j ∧ h.name ≠ "" ∧
          e = (colLetter (j + 1),
            ⟨h.name, (classifyV2 (row.getD j CellValue.absent)).2,
              (classifyV2 (row.getD j CellValue.absent)).1⟩)) := by
  constructor
  · intro row idx hf h hm heq
    obtain ⟨j, hj, hidx, htr, -, -⟩ := mem_buildHeadersAux hm
    have hji : j = idx := by omega
    rw [hji] at htr
    rw [htr] at hf
    exact Bool.noConfusion hf
  · intro headers row e hm
    obtain ⟨h, hh, j, hj, hidx, hn, he⟩ := mem_buildRowDictAux hm
    exact ⟨h, hh, j, hj, by omega, hn, by simpa using he⟩

/-- C5 witness: in the row ["A", "", "B"] the empty header cell at index 1 is
filtered, so the header entry of column A (in the retained set) is not at
index 1. -/
theorem c5_amended_header_filtering_witness :
    (⟨"A", "A", 0⟩ : HeaderEntry).index ≠ 1 :=
  c5_amended_header_filtering.1
    [CellValue.text ("A"), CellValue.text (""), CellValue.text ("B")] 1 rfl
    ⟨"A", "A", 0⟩ (by decide)

/-- C6: when no scanned row reaches 3 meaningful cells, the v2 detector
yields nothing (the NoHeaderFound condition), the caller substitutes header
row 1, and extraction proceeds from that row (headers from row 1, samples
from rows 2..4); the simple variant behaves the same way. -/
theorem c6_no_header_fallback :
    (∀ fs p n ws, fs p = FileState.ok ws none →
      (∀ i ∈ pyRange 1 (min 15 (ws.maxRow + 1)),
          cntV2 ((first20Of ws).map RowSnapshot.values) i < 3) →
      detectHeaderV2 ((first20Of ws).map RowSnapshot.values) ws.maxRow = none ∧
      (analyzeExcelV2 fs p n).header_row = some 1 ∧
      (analyzeExcelV2 fs p n).headers = buildHeaders (paddedRowAt ws ws.maxCol 1) ∧
      (analyzeExcelV2 fs p n).sample_data =
        (pyRange 2 (min 5 (ws.maxRow + 1))).map
          (sampleAt ws (buildHeaders (paddedRowAt ws ws.maxCol 1))))
    ∧ (∀ ws, (∀ i ∈ pyRange 1 21, rowQualV1 (paddedRowAt ws ws.maxCol i) = false) →
        detectHeaderV1 ws = none ∧ headerRowV1 ws = 1) := by
  constructor
  · intro fs p n ws hfs hcnt
    have hdet : detectHeaderV2 ((first20Of ws).map RowSnapshot.values) ws.maxRow = none := by
      unfold detectHeaderV2
      rw [bestStep_foldl_const (fun i hi hc => by have := hcnt i hi; omega)]
    have hhr : headerRowOf ws = 1 := by
      unfold headerRowOf
      rw [hdet]
      rfl
    have hrun : analyzeExcelV2 fs p n = analyzeFull n p ws := by
      unfold analyzeExcelV2
      rw [analyzeRun_ok_none hfs]
    refine ⟨hdet, ?_, ?_, ?_⟩ <;> rw [hrun] <;> simp [analyzeFull, hhr]
  · intro ws hq
    have hdet : detectHeaderV1 ws = none := by
      unfold detectHeaderV1
      exact List.find?_eq_none.mpr
        (fun x hx hpx => by rw [hq x hx] at hpx; exact Bool.noConfusion hpx)
    exact ⟨hdet, by unfold headerRowV1; rw [hdet]; rfl⟩

/-- C6 witness: a one-row grid with a single meaningful cell triggers the
row-1 fallback. -/
theorem c6_no_header_fallback_witness :
    detectHeaderV2 ((first20Of ⟨"s", [[CellValue.text ("x")]]⟩).map RowSnapshot.values)
      (Worksheet.maxRow ⟨"s", [[CellValue.text ("x")]]⟩) = none ∧
    (analyzeExcelV2 (fun _ => FileState.ok ⟨"s", [[CellValue.text ("x")]]⟩ none)
        "p" "n").header_row = some 1 := by
  have h := c6_no_header_fallback.1
    (fun _ => FileState.ok ⟨"s", [[CellValue.text ("x")]]⟩ none) "p" "n"
    ⟨"s", [[CellValue.text ("x")]]⟩ rfl ?_
  · exact ⟨h.1, h.2.1⟩
  · intro i hi
    have hb := mem_pyRange.mp hi
    have hi1 : i = 1 := by
      have h2 := hb.2
      have h3 : min 15 (Worksheet.maxRow ⟨"s", [[CellValue.text ("x")]]⟩ + 1) = 2 := by decide
      omega
    rw [hi1]
    decide

/-- C7, counterexample: when `load_workbook` raises, the v2 result has its
error field populated but `exists` is already True — not at its default
False — so not every other field remains at its default. -/
theorem c7_counterexample :
    (analyzeExcelV2 (fun _ => FileState.loadFail ("BadZipFile: bad")) "p" "n").error
        = some ("BadZipFile: bad") ∧
    (analyzeExcelV2 (fun _ => FileState.loadFail ("BadZipFile: bad")) "p" "n").exists_ = true ∧
    ({ name := "n", filepath := "p" } : ResultV2).exists_ = false := by
  decide

/-- C7 (amended): the batch maps each item to its own result independently
(one per item, in order), a fault stops that item with its error field
populated while fields not yet assigned keep their defaults — for a
non-existent path all other fields stay at their defaults with exists=false,
while a post-existence-check fault leaves exists=true — and items whose
processing does not fault produce full results with no error. -/
theorem c7_amended_isolation :
    (∀ fs files, (runBatchV2 fs files).length = files.length ∧
        ∀ k, k < files.length →
          (runBatchV2 fs files).getD k { name := "", filepath := "" } =
            analyzeExcelV2 fs (files.getD k ("", "")).1 (files.getD k ("", "")).2)
    ∧ (∀ fs p n, fs p = FileState.missing →
        analyzeExcelV2 fs p n = { name := n, filepath := p, error := some ("File not found") })
    ∧ (∀ fs p n msg, fs p = FileState.loadFail msg →
        analyzeExcelV2 fs p n = { name := n, filepath := p, exists_ := true, error := some msg })
    ∧ (∀ fs p n ws, fs p = FileState.ok ws none →
        (analyzeExcelV2 fs p n).error = none ∧ (analyzeExcelV2 fs p n).exists_ = true) := by
  refine ⟨?_, ?_, ?_, ?_⟩
  · intro fs files
    constructor
    · simp [runBatchV2]
    · intro k hk
      unfold runBatchV2
      rw [List.getD_eq_getElem?_getD, List.getElem?_map]
      rw [List.getD_eq_getElem?_getD]
      rw [List.getElem?_eq_getElem hk]
      rfl
  · intro fs p n h
    unfold analyzeExcelV2 analyzeExcelV2Run
    rw [h]
  · intro fs p n msg h
    unfold analyzeExcelV2 analyzeExcelV2Run
    rw [h]
  · intro fs p n ws h
    have hrun : analyzeExcelV2 fs p n = analyzeFull n p ws := by
      unfold analyzeExcelV2
      rw [analyzeRun_ok_none h]
    rw [hrun]
    exact ⟨rfl, rfl⟩

/-- C7 witness: a 3-item batch whose middle path does not exist — items 1
and 3 produce full error-free results, item 2 reports exists=false with the
error populated. -/
theorem c7_amended_isolation_witness :
    (runBatchV2
        (fun p => if p = "a" then FileState.ok ⟨"S", [[CellValue.text ("x")]]⟩ none
          else if p = "b" then FileState.missing
          else FileState.ok ⟨"T", [[CellValue.text ("y")]]⟩ none)
        [("a", "wb1"), ("b", "wb2"), ("c", "wb3")]).length = 3 ∧
    (analyzeExcelV2
        (fun p => if p = "a" then FileState.ok ⟨"S", [[CellValue.text ("x")]]⟩ none
          else if p = "b" then FileState.missing
          else FileState.ok ⟨"T", [[CellValue.text ("y")]]⟩ none) "b" "wb2")
      = { name := "wb2", filepath := "b", error := some ("File not found") } ∧
    (analyzeExcelV2
        (fun p => if p = "a" then FileState.ok ⟨"S", [[CellValue.text ("x")]]⟩ none
          else if p = "b" then FileState.missing
          else FileState.ok ⟨"T", [[CellValue.text ("y")]]⟩ none) "a" "wb1").error = none ∧
    (analyzeExcelV2
        (fun p => if p = "a" then FileState.ok ⟨"S", [[CellValue.text ("x")]]⟩ none
          else if p = "b" then FileState.missing
          else FileState.ok ⟨"T", [[CellValue.text ("y")]]⟩ none) "c" "wb3").error = none := by
  refine ⟨?_, ?_, ?_, ?_⟩
  · exact (c7_amended_isolation.1 _ [("a", "wb1"), ("b", "wb2"), ("c", "wb3")]).1
  · exact c7_amended_isolation.2.1 _ ("b") ("wb2") rfl
  · exact (c7_amended_isolation.2.2.2 _ ("a") ("wb1") ⟨"S", [[CellValue.text ("x")]]⟩ rfl).1
  · exact (c7_amended_isolation.2.2.2 _ ("c") ("wb3") ⟨"T", [[CellValue.text ("y")]]⟩ rfl).1

/-- C8: in the summary variant, a row that qualifies numerically (at least 3
non-empty cells) is rejected whenever some truthy cell's trimmed text
exceeds 100 characters or has more than 2 newlines — the detector never
selects it — and a qualifying row whose cells all pass those checks is
accepted (selected when no earlier scanned row qualifies). -/
theorem c8_looks_like_header :
    (∀ ws i, 3 ≤ rowNonEmptySummary (paddedRowAt ws ws.maxCol i) →
        (∃ c ∈ paddedRowAt ws ws.maxCol i, cellHeaderBad c = true) →
        detectHeaderSummary ws ≠ some i)
    ∧ (∀ ws i, i ∈ pyRange 1 (min 15 (ws.maxRow + 1)) →
        3 ≤ rowNonEmptySummary (paddedRowAt ws ws.maxCol i) →
        (∀ c ∈ paddedRowAt ws ws.maxCol i, cellHeaderBad c = false) →
        (∀ j ∈ pyRange 1 (min 15 (ws.maxRow + 1)), j < i →
            rowQualSummary (paddedRowAt ws ws.maxCol j) = false) →
        detectHeaderSummary ws = some i) := by
  constructor
  · intro ws i h3 hbad hdet
    obtain ⟨c, hc, hcbad⟩ := hbad
    have hq := List.find?_some hdet
    simp only [rowQualSummary, Bool.and_eq_true] at hq
    have hall := hq.2.1
    simp only [looksLikeHeaderRow, List.all_eq_true] at hall
    have := hall c hc
    rw [hcbad] at this
    exact Bool.noConfusion this
  · intro ws i hmem h3 hok hfirst
    obtain ⟨L1, L2, heq, hL1, hL2⟩ := pyRange_split hmem
    unfold detectHeaderSummary
    rw [heq]
    refine find?_eq_some_of_first ?_ ?_
    · simp only [rowQualSummary, Bool.and_eq_true, decide_eq_true_eq]
      refine ⟨h3, ?_, h3⟩
      simp only [looksLikeHeaderRow, List.all_eq_true]
      intro c hc
      rw [hok c hc]
      rfl
    · intro j hj
      have hjm : j ∈ pyRange 1 (min 15 (ws.maxRow + 1)) := by
        rw [heq]; exact List.mem_append.mpr (Or.inl hj)
      exact hfirst j hjm (hL1 j hj)

/-- C8 witness: a first row with a 3-newline cell is rejected although it
has 3 non-empty cells, so the all-short second row is selected; and the
rejection part instantiated at that first row. -/
theorem c8_looks_like_header_witness :
    detectHeaderSummary ⟨"s", [[CellValue.text ("a\nb\nc\nd"), CellValue.text ("x"), CellValue.text ("y")],
      [CellValue.text ("p"), CellValue.text ("q"), CellValue.text ("r")]]⟩ = some 2 := by
  apply c8_looks_like_header.2
  · decide
  · decide
  · intro c hc
    have hc2 : c ∈ [CellValue.text ("p"), CellValue.text ("q"), CellValue.text ("r")] := hc
    fin_cases hc2 <;> decide
  · intro j hj hlt
    have hb := mem_pyRange.mp hj
    have hj1 : j = 1 := by
      have h3 : min 15 (Worksheet.maxRow ⟨"s",
        [[CellValue.text ("a\nb\nc\nd"), CellValue.text ("x"), CellValue.text ("y")],
          [CellValue.text ("p"), CellValue.text ("q"), CellValue.text ("r")]]⟩ + 1) = 3 := by decide
      omega
    rw [hj1]
    decide

/-- C9: the claim demands a close on every exit path, but on a workbook
whose row read raises mid-analysis the v2 code (whose `wb.close()` sits at
the end of the `try` body, not in a `finally`) records the error and emits
no close: the event trace is `[opened]` only. -/
theorem c9_close_skipped_on_fault :
    (analyzeExcelV2Run
        (fun _ => FileState.ok ⟨"S", [[CellValue.text ("a")], [CellValue.text ("b")]]⟩ (some 2))
        "p" "n").2 = [Ev.opened] ∧
    Ev.closed ∉ (analyzeExcelV2Run
        (fun _ => FileState.ok ⟨"S", [[CellValue.text ("a")], [CellValue.text ("b")]]⟩ (some 2))
        "p" "n").2 ∧
    (analyzeExcelV2Run
        (fun _ => FileState.ok ⟨"S", [[CellValue.text ("a")], [CellValue.text ("b")]]⟩ (some 2))
        "p" "n").1.error = some rowFaultMsg ∧
    (analyzeExcelV2Run
        (fun _ => FileState.ok ⟨"S", [[CellValue.text ("a")], [CellValue.text ("b")]]⟩ none)
        "p" "n").2 = [Ev.opened, Ev.closed] := by
  decide

end DocScan
